import Mathlib

/-!
Verification of `modules/postgres/charts.go` from the go.d.plugin repository:
the static chart catalog, the per-database chart template, and the two
helper operations that instantiate charts for a database and mark them for
removal again.

Go values are embedded shallowly: `module.Chart` becomes a Lean structure,
`module.Charts` (a Go slice of chart pointers) becomes a `List Chart`, and
the in-place mutation performed through the pointers becomes a pure `List.map`.
Parts of the host `agent/module` package that are not in this file's source
(`Charts.Add`, `Chart.Copy`, `MarkRemove`, `MarkNotCreated`, `module.Priority`)
are modelled from the specification and carry a doc comment saying so.
-/

/-- Model of Go `fmt.Sprintf` restricted to the format features that can occur
here: a format string and a single string argument.  Characters are copied
verbatim; `%s` consumes the argument and inserts it literally (the inserted
text is never re-scanned); `%%` emits a literal percent sign; any other verb,
a missing argument or an unconsumed argument produces the corresponding Go
error artifact in the output. -/
def sprintfChars : List Char → List Char → Bool → List Char
  | [], arg, used => if used then [] else ('%' :: '!' :: '(' :: 'E' :: 'X' :: 'T' :: 'R' :: 'A' :: ' ' :: []) ++ arg ++ [')']
  | c :: rest, arg, used =>
    if c = '%' then
      match rest with
      | [] => ('%' :: '!' :: '(' :: 'N' :: 'O' :: 'V' :: 'E' :: 'R' :: 'B' :: ')' :: []) ++ (if used then [] else ('%' :: '!' :: '(' :: 'E' :: 'X' :: 'T' :: 'R' :: 'A' :: ' ' :: []) ++ arg ++ [')'])
      | v :: rest2 =>
        if v = '%' then '%' :: sprintfChars rest2 arg used
        else if v = 's' then
          if used then ('%' :: '!' :: 's' :: '(' :: 'M' :: 'I' :: 'S' :: 'S' :: 'I' :: 'N' :: 'G' :: ')' :: []) ++ sprintfChars rest2 arg used
          else arg ++ sprintfChars rest2 arg true
        else
          if used then ('%' :: '!' :: v :: '(' :: 'M' :: 'I' :: 'S' :: 'S' :: 'I' :: 'N' :: 'G' :: ')' :: []) ++ sprintfChars rest2 arg used
          else ('%' :: '!' :: v :: '(' :: 's' :: 't' :: 'r' :: 'i' :: 'n' :: 'g' :: '=' :: []) ++ arg ++ [')'] ++ sprintfChars rest2 arg true
    else c :: sprintfChars rest arg used

/-- Go `fmt.Sprintf(format, arg)` with one string argument. -/
def sprintf1 (format arg : String) : String :=
  ⟨sprintfChars format.data arg.data false⟩

/-- Literal replacement of the first occurrence of the two-character sequence
`%s` by the given text; used to state, independently of the `fmt` model, what
"substituting the database name for the placeholder" means. -/
def replaceFirstPS : List Char → List Char → List Char
  | [], _ => []
  | [c], _ => [c]
  | c :: v :: rest, d =>
    if c = '%' ∧ v = 's' then d ++ rest
    else c :: replaceFirstPS (v :: rest) d

/-- Checks that a format string contains exactly one percent sign and that it
is immediately followed by `s`: exactly one `%s` verb and no other verb. -/
def onePSb : List Char → Bool
  | [] => false
  | c :: rest =>
    if c = '%' then
      match rest with
      | [] => false
      | v :: rest2 => v = 's' && rest2.all (fun x => x ≠ '%')
    else onePSb rest

/-- Go `strings.HasPrefix(s, pfx)`. -/
def strHasPrefix (pfx s : String) : Bool :=
  pfx.data.isPrefixOf s.data

/-- Chart render type (`module.Chart.Type`); Go's zero value renders as a line. -/
inductive ChartType where
  | line
  | stacked
  | area
  deriving DecidableEq, Inhabited

/-- Dimension algorithm (`module.DimAlgo`); Go's zero value means absolute. -/
inductive DimAlgo where
  | absolute
  | incremental
  deriving DecidableEq, Inhabited

/-- `module.Dim`: a chart dimension. -/
structure Dim where
  ID : String := ""
  Name : String := ""
  Algo : DimAlgo := DimAlgo.absolute
  deriving DecidableEq, Inhabited

/-- `module.Label`: a chart label. -/
structure Label where
  Key : String := ""
  Value : String := ""
  deriving DecidableEq, Inhabited

/-- `module.Chart`.  The Go field `Type` is called `chartType` here because
`Type` is reserved in Lean.  Modelled from the spec: the flags `remove` and
`created` stand for the host package's internal state toggled by
`MarkRemove` (flag the chart for removal) and `MarkNotCreated`; both start
out false for a freshly built chart value. -/
structure Chart where
  ID : String := ""
  Title : String := ""
  Units : String := ""
  Fam : String := ""
  Ctx : String := ""
  Priority : Nat := 0
  chartType : ChartType := ChartType.line
  Labels : List Label := []
  Dims : List Dim := []
  remove : Bool := false
  created : Bool := false
  deriving DecidableEq, Inhabited

/-- Modelled from the spec: `Chart.MarkRemove` flags the chart for removal. -/
def Chart.markRemove (c : Chart) : Chart :=
  { c with remove := true }

/-- Modelled from the spec: `Chart.MarkNotCreated` marks the chart as not
created. -/
def Chart.markNotCreated (c : Chart) : Chart :=
  { c with created := false }

/-- Modelled from the spec: the host `agent/module` package's base chart
priority constant `module.Priority`.  Its concrete value is irrelevant to
every claim below (only offsets from it matter); 70000 stands in for it. -/
def modulePriority : Nat := 70000

/- The 32 priority constants declared with `iota` in the source: consecutive
values starting at `module.Priority`, in declaration order. -/

def prioConnectionsUtilization : Nat := modulePriority

def prioConnectionsUsage : Nat := modulePriority + 1

def prioCheckpoints : Nat := modulePriority + 2

def prioCheckpointTime : Nat := modulePriority + 3

def prioBGWriterBuffersAllocated : Nat := modulePriority + 4

def prioBGWriterBuffersWritten : Nat := modulePriority + 5

def prioBGWriterMaxWrittenClean : Nat := modulePriority + 6

def prioBGWriterBackedFsync : Nat := modulePriority + 7

def prioWALWrites : Nat := modulePriority + 8

def prioWALFiles : Nat := modulePriority + 9

def prioWALArchive : Nat := modulePriority + 10

def prioAutovacuumWorkers : Nat := modulePriority + 11

def prioAutovacuumPercentTowards : Nat := modulePriority + 12

def prioTXIDWraparoundPercentTowards : Nat := modulePriority + 13

def prioTXIDWraparoundOldestTXID : Nat := modulePriority + 14

def prioCatalogRelationCount : Nat := modulePriority + 15

def prioCatalogRelationSize : Nat := modulePriority + 16

def prioUptime : Nat := modulePriority + 17

def prioDBTransactions : Nat := modulePriority + 18

def prioDBConnectionsUtilization : Nat := modulePriority + 19

def prioDBConnections : Nat := modulePriority + 20

def prioDBBufferCache : Nat := modulePriority + 21

def prioDBReadOperations : Nat := modulePriority + 22

def prioDBWriteOperations : Nat := modulePriority + 23

def prioDBConflicts : Nat := modulePriority + 24

def prioDBConflictsStat : Nat := modulePriority + 25

def prioDBDeadlocks : Nat := modulePriority + 26

def prioDBLocksHeld : Nat := modulePriority + 27

def prioDBLocksAwaited : Nat := modulePriority + 28

def prioDBTempFiles : Nat := modulePriority + 29

def prioDBTempFilesData : Nat := modulePriority + 30

def prioDBSize : Nat := modulePriority + 31

/- The 18 static server-scoped chart definitions. -/

def serverConnectionsUtilizationChart : Chart :=
  { ID := "connections_utilization"
    Title := "Connections utilization"
    Units := "percentage"
    Fam := "connections"
    Ctx := "postgres.connections_utilization"
    Priority := prioConnectionsUtilization
    Dims := [
      { ID := "server_connections_utilization", Name := "used" }] }

def serverConnectionsUsageChart : Chart :=
  { ID := "connections_usage"
    Title := "Connections usage"
    Units := "connections"
    Fam := "connections"
    Ctx := "postgres.connections_usage"
    Priority := prioConnectionsUsage
    chartType := ChartType.stacked
    Dims := [
      { ID := "server_connections_available", Name := "available" },
      { ID := "server_connections_used", Name := "used" }] }

def checkpointsChart : Chart :=
  { ID := "checkpoints"
    Title := "Checkpoints"
    Units := "checkpoints/s"
    Fam := "checkpointer"
    Ctx := "postgres.checkpoints"
    Priority := prioCheckpoints
    chartType := ChartType.stacked
    Dims := [
      { ID := "checkpoints_timed", Name := "scheduled", Algo := DimAlgo.incremental },
      { ID := "checkpoints_req", Name := "requested", Algo := DimAlgo.incremental }] }

def checkpointWriteChart : Chart :=
  { ID := "checkpoint_time"
    Title := "Checkpoint time"
    Units := "milliseconds"
    Fam := "checkpointer"
    Ctx := "postgres.checkpoint_time"
    Priority := prioCheckpointTime
    Dims := [
      { ID := "checkpoint_write_time", Name := "write", Algo := DimAlgo.incremental },
      { ID := "checkpoint_sync_time", Name := "sync", Algo := DimAlgo.incremental }] }

def bgWriterBuffersAllocChart : Chart :=
  { ID := "bgwriter_buffers_alloc"
    Title := "Background writer buffers allocated"
    Units := "B/s"
    Fam := "background writer"
    Ctx := "postgres.bgwriter_buffers_alloc"
    Priority := prioBGWriterBuffersAllocated
    Dims := [
      { ID := "buffers_alloc", Name := "allocated", Algo := DimAlgo.incremental }] }

def bgWriterBuffersWrittenChart : Chart :=
  { ID := "bgwriter_buffers_written"
    Title := "Background writer buffers written"
    Units := "B/s"
    Fam := "background writer"
    Ctx := "postgres.bgwriter_buffers_written"
    Priority := prioBGWriterBuffersWritten
    chartType := ChartType.area
    Dims := [
      { ID := "buffers_checkpoint", Name := "checkpoint", Algo := DimAlgo.incremental },
      { ID := "buffers_backend", Name := "backend", Algo := DimAlgo.incremental },
      { ID := "buffers_clean", Name := "clean", Algo := DimAlgo.incremental }] }

def bgWriterMaxWrittenCleanChart : Chart :=
  { ID := "bgwriter_maxwritten_clean"
    Title := "Background writer cleaning scan stops"
    Units := "events/s"
    Fam := "background writer"
    Ctx := "postgres.bgwriter_maxwritten_clean"
    Priority := prioBGWriterMaxWrittenClean
    Dims := [
      { ID := "maxwritten_clean", Name := "maxwritten", Algo := DimAlgo.incremental }] }

def bgWriterBuffersBackendFsyncChart : Chart :=
  { ID := "bgwriter_buffers_backend_fsync"
    Title := "Backend fsync"
    Units := "operations/s"
    Fam := "background writer"
    Ctx := "postgres.bgwriter_buffers_backend_fsync"
    Priority := prioBGWriterBackedFsync
    Dims := [
      { ID := "buffers_backend_fsync", Name := "fsync", Algo := DimAlgo.incremental }] }

def walWritesChart : Chart :=
  { ID := "wal_writes"
    Title := "Write-Ahead Log"
    Units := "B/s"
    Fam := "wal"
    Ctx := "postgres.wal_writes"
    Priority := prioWALWrites
    Dims := [
      { ID := "wal_writes", Name := "writes", Algo := DimAlgo.incremental }] }

def walFilesChart : Chart :=
  { ID := "wal_files"
    Title := "Write-Ahead Log files"
    Units := "files"
    Fam := "wal"
    Ctx := "postgres.wal_files"
    Priority := prioWALFiles
    chartType := ChartType.stacked
    Dims := [
      { ID := "wal_written_files", Name := "written" },
      { ID := "wal_recycled_files", Name := "recycled" }] }

def walArchiveFilesChart : Chart :=
  { ID := "wal_archive_files"
    Title := "Write-Ahead Log archive files"
    Units := "files/s"
    Fam := "wal archive"
    Ctx := "postgres.wal_archive_files"
    Priority := prioWALArchive
    chartType := ChartType.stacked
    Dims := [
      { ID := "wal_archive_files_ready_count", Name := "ready", Algo := DimAlgo.incremental },
      { ID := "wal_archive_files_done_count", Name := "done", Algo := DimAlgo.incremental }] }

def autovacuumWorkersChart : Chart :=
  { ID := "autovacuum_workers"
    Title := "Autovacuum workers"
    Units := "workers"
    Fam := "autovacuum"
    Ctx := "postgres.autovacuum_workers"
    Priority := prioAutovacuumWorkers
    Dims := [
      { ID := "autovacuum_analyze", Name := "analyze" },
      { ID := "autovacuum_vacuum_analyze", Name := "vacuum_analyze" },
      { ID := "autovacuum_vacuum", Name := "vacuum" },
      { ID := "autovacuum_vacuum_freeze", Name := "vacuum_freeze" },
      { ID := "autovacuum_brin_summarize", Name := "brin_summarize" }] }

def percentTowardsEmergencyAutovacuumChart : Chart :=
  { ID := "percent_towards_emergency_autovacuum"
    Title := "Percent towards emergency autovacuum"
    Units := "percentage"
    Fam := "autovacuum"
    Ctx := "postgres.percent_towards_emergency_autovacuum"
    Priority := prioAutovacuumPercentTowards
    Dims := [
      { ID := "percent_towards_emergency_autovacuum", Name := "emergency_autovacuum" }] }

def percentTowardTXIDWraparoundChart : Chart :=
  { ID := "percent_towards_txid_wraparound"
    Title := "Percent towards transaction ID wraparound"
    Units := "percentage"
    Fam := "txid wraparound"
    Ctx := "postgres.percent_towards_txid_wraparound"
    Priority := prioTXIDWraparoundPercentTowards
    Dims := [
      { ID := "percent_towards_wraparound", Name := "txid_wraparound" }] }

def oldestTXIDChart : Chart :=
  { ID := "oldest_transaction_xid"
    Title := "Oldest transaction XID"
    Units := "xid"
    Fam := "txid wraparound"
    Ctx := "postgres.oldest_transaction_xid"
    Priority := prioTXIDWraparoundOldestTXID
    Dims := [
      { ID := "oldest_current_xid", Name := "xid" }] }

def catalogRelationCountChart : Chart :=
  { ID := "catalog_relation_count"
    Title := "Relation count"
    Units := "relations"
    Fam := "catalog"
    Ctx := "postgres.catalog_relation_count"
    Priority := prioCatalogRelationCount
    chartType := ChartType.stacked
    Dims := [
      { ID := "catalog_relkind_r_count", Name := "ordinary_table" },
      { ID := "catalog_relkind_i_count", Name := "index" },
      { ID := "catalog_relkind_S_count", Name := "sequence" },
      { ID := "catalog_relkind_t_count", Name := "toast_table" },
      { ID := "catalog_relkind_v_count", Name := "view" },
      { ID := "catalog_relkind_m_count", Name := "materialized_view" },
      { ID := "catalog_relkind_c_count", Name := "composite_type" },
      { ID := "catalog_relkind_f_count", Name := "foreign_table" },
      { ID := "catalog_relkind_p_count", Name := "partitioned_table" },
      { ID := "catalog_relkind_I_count", Name := "partitioned_index" }] }

def catalogRelationSizeChart : Chart :=
  { ID := "catalog_relation_size"
    Title := "Relation size"
    Units := "B"
    Fam := "catalog"
    Ctx := "postgres.catalog_relation_size"
    Priority := prioCatalogRelationSize
    chartType := ChartType.stacked
    Dims := [
      { ID := "catalog_relkind_r_size", Name := "ordinary_table" },
      { ID := "catalog_relkind_i_size", Name := "index" },
      { ID := "catalog_relkind_S_size", Name := "sequence" },
      { ID := "catalog_relkind_t_size", Name := "toast_table" },
      { ID := "catalog_relkind_v_size", Name := "view" },
      { ID := "catalog_relkind_m_size", Name := "materialized_view" },
      { ID := "catalog_relkind_c_size", Name := "composite_type" },
      { ID := "catalog_relkind_f_size", Name := "foreign_table" },
      { ID := "catalog_relkind_p_size", Name := "partitioned_table" },
      { ID := "catalog_relkind_I_size", Name := "partitioned_index" }] }

def serverUptimeChart : Chart :=
  { ID := "server_uptime"
    Title := "Uptime"
    Units := "seconds"
    Fam := "uptime"
    Ctx := "postgres.uptime"
    Priority := prioUptime
    Dims := [
      { ID := "server_uptime", Name := "uptime" }] }

/-- The static chart set registered for every server, in source order.  The
source builds it from `Copy()` of each chart variable; copying is the
identity on values in this embedding. -/
def baseCharts : List Chart := [
  serverConnectionsUtilizationChart,
  serverConnectionsUsageChart,
  checkpointsChart,
  checkpointWriteChart,
  bgWriterBuffersWrittenChart,
  bgWriterBuffersAllocChart,
  bgWriterMaxWrittenCleanChart,
  bgWriterBuffersBackendFsyncChart,
  walWritesChart,
  walFilesChart,
  walArchiveFilesChart,
  autovacuumWorkersChart,
  percentTowardsEmergencyAutovacuumChart,
  percentTowardTXIDWraparoundChart,
  oldestTXIDChart,
  catalogRelationCountChart,
  catalogRelationSizeChart,
  serverUptimeChart]

/- The 14 per-database chart templates: IDs and dimension IDs carry a `%s`
placeholder for the database name. -/

def dbTransactionsChartTmpl : Chart :=
  { ID := "db_%s_transactions"
    Title := "Database transactions"
    Units := "transactions/s"
    Fam := "db transactions"
    Ctx := "postgres.db_transactions"
    Priority := prioDBTransactions
    Dims := [
      { ID := "db_%s_xact_commit", Name := "committed", Algo := DimAlgo.incremental },
      { ID := "db_%s_xact_rollback", Name := "rollback", Algo := DimAlgo.incremental }] }

def dbConnectionsUtilizationChartTmpl : Chart :=
  { ID := "db_%s_connections_utilization"
    Title := "Database connections utilization withing limits"
    Units := "percentage"
    Fam := "db connections"
    Ctx := "postgres.db_connections_utilization"
    Priority := prioDBConnectionsUtilization
    Dims := [
      { ID := "db_%s_numbackends_utilization", Name := "used" }] }

def dbConnectionsChartTmpl : Chart :=
  { ID := "db_%s_connections"
    Title := "Database connections"
    Units := "connections"
    Fam := "db connections"
    Ctx := "postgres.db_connections"
    Priority := prioDBConnections
    Dims := [
      { ID := "db_%s_numbackends", Name := "connections" }] }

def dbBufferCacheChartTmpl : Chart :=
  { ID := "db_%s_buffer_cache"
    Title := "Database buffer cache"
    Units := "blocks/s"
    Fam := "db buffer cache"
    Ctx := "postgres.db_buffer_cache"
    Priority := prioDBBufferCache
    chartType := ChartType.area
    Dims := [
      { ID := "db_%s_blks_hit", Name := "hit", Algo := DimAlgo.incremental },
      { ID := "db_%s_blks_read", Name := "miss", Algo := DimAlgo.incremental }] }

def dbReadOpsChartTmpl : Chart :=
  { ID := "db_%s_read_operations"
    Title := "Database read operations"
    Units := "rows/s"
    Fam := "db operations"
    Ctx := "postgres.db_read_operations"
    Priority := prioDBReadOperations
    Dims := [
      { ID := "db_%s_tup_returned", Name := "returned", Algo := DimAlgo.incremental },
      { ID := "db_%s_tup_fetched", Name := "fetched", Algo := DimAlgo.incremental }] }

def dbWriteOpsChartTmpl : Chart :=
  { ID := "db_%s_write_operations"
    Title := "Database write operations"
    Units := "rows/s"
    Fam := "db operations"
    Ctx := "postgres.db_write_operations"
    Priority := prioDBWriteOperations
    Dims := [
      { ID := "db_%s_tup_inserted", Name := "inserted", Algo := DimAlgo.incremental },
      { ID := "db_%s_tup_deleted", Name := "deleted", Algo := DimAlgo.incremental },
      { ID := "db_%s_tup_updated", Name := "updated", Algo := DimAlgo.incremental }] }

def dbConflictsChartTmpl : Chart :=
  { ID := "db_%s_conflicts"
    Title := "Database canceled queries"
    Units := "queries/s"
    Fam := "db operations"
    Ctx := "postgres.db_conflicts"
    Priority := prioDBConflicts
    Dims := [
      { ID := "db_%s_conflicts", Name := "conflicts", Algo := DimAlgo.incremental }] }

def dbConflictsStatChartTmpl : Chart :=
  { ID := "db_%s_conflicts_stat"
    Title := "Database canceled queries by reason"
    Units := "queries/s"
    Fam := "db operations"
    Ctx := "postgres.db_conflicts_stat"
    Priority := prioDBConflictsStat
    Dims := [
      { ID := "db_%s_confl_tablespace", Name := "tablespace", Algo := DimAlgo.incremental },
      { ID := "db_%s_confl_lock", Name := "lock", Algo := DimAlgo.incremental },
      { ID := "db_%s_confl_snapshot", Name := "snapshot", Algo := DimAlgo.incremental },
      { ID := "db_%s_confl_bufferpin", Name := "bufferpin", Algo := DimAlgo.incremental },
      { ID := "db_%s_confl_deadlock", Name := "deadlock", Algo := DimAlgo.incremental }] }

def dbDeadlocksChartTmpl : Chart :=
  { ID := "db_%s_deadlocks"
    Title := "Database deadlocks"
    Units := "deadlocks/s"
    Fam := "db deadlocks"
    Ctx := "postgres.db_deadlocks"
    Priority := prioDBDeadlocks
    Dims := [
      { ID := "db_%s_deadlocks", Name := "deadlocks", Algo := DimAlgo.incremental }] }

def dbLocksHeldChartTmpl : Chart :=
  { ID := "db_%s_locks_held"
    Title := "Database locks held"
    Units := "locks"
    Fam := "db locks"
    Ctx := "postgres.db_locks_held"
    Priority := prioDBLocksHeld
    chartType := ChartType.stacked
    Dims := [
      { ID := "db_%s_lock_mode_AccessShareLock_held", Name := "access_share" },
      { ID := "db_%s_lock_mode_RowShareLock_held", Name := "row_share" },
      { ID := "db_%s_lock_mode_RowExclusiveLock_held", Name := "row_exclusive" },
      { ID := "db_%s_lock_mode_ShareUpdateExclusiveLock_held", Name := "share_update" },
      { ID := "db_%s_lock_mode_ShareLock_held", Name := "share" },
      { ID := "db_%s_lock_mode_ShareRowExclusiveLock_held", Name := "share_row_exclusive" },
      { ID := "db_%s_lock_mode_ExclusiveLock_held", Name := "exclusive" },
      { ID := "db_%s_lock_mode_AccessExclusiveLock_held", Name := "access_exclusive" }] }

def dbLocksAwaitedChartTmpl : Chart :=
  { ID := "db_%s_locks_awaited"
    Title := "Database locks awaited"
    Units := "locks"
    Fam := "db locks"
    Ctx := "postgres.db_locks_awaited"
    Priority := prioDBLocksAwaited
    chartType := ChartType.stacked
    Dims := [
      { ID := "db_%s_lock_mode_AccessShareLock_awaited", Name := "access_share" },
      { ID := "db_%s_lock_mode_RowShareLock_awaited", Name := "row_share" },
      { ID := "db_%s_lock_mode_RowExclusiveLock_awaited", Name := "row_exclusive" },
      { ID := "db_%s_lock_mode_ShareUpdateExclusiveLock_awaited", Name := "share_update" },
      { ID := "db_%s_lock_mode_ShareLock_awaited", Name := "share" },
      { ID := "db_%s_lock_mode_ShareRowExclusiveLock_awaited", Name := "share_row_exclusive" },
      { ID := "db_%s_lock_mode_ExclusiveLock_awaited", Name := "exclusive" },
      { ID := "db_%s_lock_mode_AccessExclusiveLock_awaited", Name := "access_exclusive" }] }

def dbTempFilesChartTmpl : Chart :=
  { ID := "db_%s_temp_files"
    Title := "Database temporary files written to disk"
    Units := "files/s"
    Fam := "db temp files"
    Ctx := "postgres.db_temp_files"
    Priority := prioDBTempFiles
    Dims := [
      { ID := "db_%s_temp_files", Name := "written", Algo := DimAlgo.incremental }] }

def dbTempFilesDataChartTmpl : Chart :=
  { ID := "db_%s_temp_files_data"
    Title := "Database temporary files data written to disk"
    Units := "B/s"
    Fam := "db temp files"
    Ctx := "postgres.db_temp_files_data"
    Priority := prioDBTempFilesData
    Dims := [
      { ID := "db_%s_temp_bytes", Name := "written", Algo := DimAlgo.incremental }] }

def dbSizeChartTmpl : Chart :=
  { ID := "db_%s_size"
    Title := "Database size"
    Units := "B"
    Fam := "db size"
    Ctx := "postgres.db_size"
    Priority := prioDBSize
    Dims := [
      { ID := "db_%s_size", Name := "size" }] }

/-- The per-database chart template list, in source order.  The source builds
it from `Copy()` of each template variable; copying is the identity on
values in this embedding. -/
def dbChartsTmpl : List Chart := [
  dbTransactionsChartTmpl,
  dbConnectionsUtilizationChartTmpl,
  dbConnectionsChartTmpl,
  dbBufferCacheChartTmpl,
  dbReadOpsChartTmpl,
  dbWriteOpsChartTmpl,
  dbConflictsChartTmpl,
  dbConflictsStatChartTmpl,
  dbDeadlocksChartTmpl,
  dbLocksHeldChartTmpl,
  dbLocksAwaitedChartTmpl,
  dbTempFilesChartTmpl,
  dbTempFilesDataChartTmpl,
  dbSizeChartTmpl]

/-- The per-chart transformation performed inside `newDatabaseCharts`'s loop:
interpolate the database name into the chart ID via `fmt.Sprintf`, set the
labels to the single label `database = dbname`, and interpolate the database
name into every dimension ID. -/
def interpChart (dbname : String) (c : Chart) : Chart :=
  { c with
    ID := sprintf1 c.ID dbname
    Labels := [{ Key := "database", Value := dbname }]
    Dims := c.Dims.map fun d => { d with ID := sprintf1 d.ID dbname } }

/-- `newDatabaseCharts(dbname)`: copy the template and mutate each copy in
place through its pointer; in the value embedding this is a map over the
template list. -/
def newDatabaseCharts (dbname : String) : List Chart :=
  dbChartsTmpl.map (interpChart dbname)

/-- Modelled from the spec: `module.Charts.Add` of the host package registers
the given charts one at a time with the collection; a chart whose ID collides
with an already-registered chart's ID is rejected, and the first rejection
stops registration with an error. -/
def chartsAdd : List Chart → List Chart → List Chart × Option String
  | cs, [] => (cs, none)
  | cs, c :: rest =>
    if cs.any (fun x => x.ID = c.ID) then
      (cs, some ("duplicate chart in charts " ++ c.ID))
    else chartsAdd (cs ++ [c]) rest

/-- The state of a `Postgres` collector that the two methods touch: the chart
collection returned by `p.Charts()` and, modelled from the spec, the log of
warnings emitted by `p.Warning`. -/
structure Postgres where
  charts : List Chart := []
  warnings : List String := []
  deriving DecidableEq, Inhabited

/-- `(p *Postgres) addNewDatabaseCharts(dbname)`: build the charts for the
database and register them; a registration error is only logged as a
warning. -/
def addNewDatabaseCharts (dbname : String) (p : Postgres) : Postgres :=
  match chartsAdd p.charts (newDatabaseCharts dbname) with
  | (cs, none) => { p with charts := cs }
  | (cs, some e) => { charts := cs, warnings := p.warnings ++ [e] }

/-- `(p *Postgres) removeDatabaseCharts(dbname)` acting on the chart list:
every chart whose ID starts with `fmt.Sprintf("db_%s_", dbname)` is marked
for removal and marked not created; pointer mutation becomes a map. -/
def removeDatabaseChartsL (dbname : String) (cs : List Chart) : List Chart :=
  cs.map fun c =>
    if strHasPrefix (sprintf1 "db_%s_" dbname) c.ID then
      c.markRemove.markNotCreated
    else c

/-- `(p *Postgres) removeDatabaseCharts(dbname)`. -/
def removeDatabaseCharts (dbname : String) (p : Postgres) : Postgres :=
  { p with charts := removeDatabaseChartsL dbname p.charts }

/-- Follows the spec's words, for comparison with `newDatabaseCharts`: the
charts returned for a database are the template charts with the database
name substituted (literally) for the `%s` placeholder in the chart ID and in
every dimension ID, and with the single label `database = dbname` attached. -/
def specDatabaseCharts (dbname : String) : List Chart :=
  dbChartsTmpl.map fun c =>
    { c with
      ID := ⟨replaceFirstPS c.ID.data dbname.data⟩
      Labels := [{ Key := "database", Value := dbname }]
      Dims := c.Dims.map fun d => { d with ID := ⟨replaceFirstPS d.ID.data dbname.data⟩ } }

/-- The parts of the template chart IDs after the common `db_%s` stem, in
template order; `"db_" ++ dbname ++ suffix` is the instantiated chart ID. -/
def dbIDSuffixes : List String := [
  "_transactions",
  "_connections_utilization",
  "_connections",
  "_buffer_cache",
  "_read_operations",
  "_write_operations",
  "_conflicts",
  "_conflicts_stat",
  "_deadlocks",
  "_locks_held",
  "_locks_awaited",
  "_temp_files",
  "_temp_files_data",
  "_size"]

/- A pointer-store model for the aliasing question behind the deep copy:
Go's `module.Charts` is a slice of pointers.  A store is the heap of chart
objects, a chart slice is the list of indices of its elements, and mutating
a chart through a pointer is `List.set` on the store. -/

/-- Modelled from the spec: `module.Charts.Copy` deep-copies every chart of
the slice; in the pointer-store model it allocates a fresh cell per chart,
holding the same value, and returns the slice of fresh pointers. -/
def copyChartsStore (store : List Chart) (refs : List Nat) :
    List Chart × List Nat :=
  (store ++ refs.map (fun r => store.getD r default),
   List.range' store.length refs.length)

/-- `newDatabaseCharts(dbname)` in the pointer-store model: deep-copy the
template slice, then mutate each copied chart in place through its pointer.
Returns the final store and the slice of pointers to the new charts. -/
def newDatabaseChartsStore (store : List Chart) (refs : List Nat)
    (dbname : String) : List Chart × List Nat :=
  match copyChartsStore store refs with
  | (store1, newRefs) =>
    (newRefs.foldl (fun st r => st.set r (interpChart dbname (st.getD r default))) store1,
     newRefs)

/- Helper lemmas. -/

/-- Instantiation agrees with the spec-side literal substitution. -/
lemma newDatabaseCharts_eq_spec (d : String) :
    newDatabaseCharts d = specDatabaseCharts d := rfl

/-- The instantiated chart IDs are the common stem `db_` followed by the
database name and the per-chart suffix, in template order. -/
lemma newDatabaseCharts_IDs (d : String) :
    (newDatabaseCharts d).map Chart.ID = dbIDSuffixes.map (fun s => "db_" ++ d ++ s) := rfl

lemma sprintf1_db_stem (d : String) : sprintf1 "db_%s_" d = "db_" ++ d ++ "_" := rfl

lemma isPrefixOf_append_same : ∀ (l a b : List Char),
    (l ++ a).isPrefixOf (l ++ b) = a.isPrefixOf b
  | [], _, _ => by simp only [List.nil_append]
  | c :: l, a, b => by
    simp only [List.cons_append, List.isPrefixOf_cons₂, beq_self_eq_true, Bool.true_and]
    exact isPrefixOf_append_same l a b

lemma isPrefixOf_append_self : ∀ (l x : List Char), l.isPrefixOf (l ++ x) = true
  | [], _ => by simp
  | c :: l, x => by
    simp only [List.cons_append, List.isPrefixOf_cons₂, beq_self_eq_true, Bool.true_and]
    exact isPrefixOf_append_self l x

/-- Every suffix in `dbIDSuffixes` begins with an underscore. -/
lemma dbIDSuffixes_tail : ∀ s ∈ dbIDSuffixes, ∃ t, s.data = '_' :: t := by
  intro s hs
  simp only [dbIDSuffixes, List.mem_cons, List.not_mem_nil, or_false] at hs
  rcases hs with rfl | rfl | rfl | rfl | rfl | rfl | rfl | rfl | rfl | rfl | rfl | rfl | rfl | rfl
  all_goals exact ⟨_, rfl⟩

lemma strHasPrefix_db (d s : String) (t : List Char) (hs : s.data = '_' :: t) :
    strHasPrefix ("db_" ++ d ++ "_") ("db_" ++ d ++ s) = true := by
  show (("db_" ++ d ++ "_").data).isPrefixOf (("db_" ++ d ++ s).data) = true
  simp only [String.data_append, hs]
  rw [isPrefixOf_append_same]
  show (['_'] : List Char).isPrefixOf ('_' :: t) = true
  simp [List.isPrefixOf_cons₂]

/-- Every chart instantiated for a database carries the removal-matching
stem of that database as an ID prefix. -/
lemma newDatabaseCharts_ID_pfx (d : String) :
    ∀ c ∈ newDatabaseCharts d, strHasPrefix ("db_" ++ d ++ "_") c.ID = true := by
  intro c hc
  have hid : c.ID ∈ (newDatabaseCharts d).map Chart.ID := List.mem_map_of_mem _ hc
  rw [newDatabaseCharts_IDs] at hid
  obtain ⟨s, hsmem, hid⟩ := List.mem_map.1 hid
  obtain ⟨t, ht⟩ := dbIDSuffixes_tail s hsmem
  rw [← hid]
  exact strHasPrefix_db d s t ht

lemma string_append_left_inj (a : String) : Function.Injective (fun s => a ++ s) := by
  intro s1 s2 h
  have h2 : (a ++ s1).data = (a ++ s2).data := congrArg String.data h
  rw [String.data_append, String.data_append] at h2
  exact String.ext (List.append_cancel_left h2)

lemma newDatabaseCharts_IDs_nodup (d : String) :
    ((newDatabaseCharts d).map Chart.ID).Nodup := by
  rw [newDatabaseCharts_IDs]
  exact (by decide : dbIDSuffixes.Nodup).map (string_append_left_inj ("db_" ++ d))

/-- No instantiated chart ID collides with a base chart ID: the former all
start with `db_`, none of the latter does. -/
lemma gen_base_ID_disjoint (d : String) :
    ∀ a ∈ (newDatabaseCharts d).map Chart.ID, a ∉ baseCharts.map Chart.ID := by
  intro a ha hb
  rw [newDatabaseCharts_IDs] at ha
  obtain ⟨s, hsmem, rfl⟩ := List.mem_map.1 ha
  obtain ⟨b, hbmem, hab⟩ := List.mem_map.1 hb
  have h1 : List.isPrefixOf "db_".data ("db_" ++ d ++ s).data = true := by
    simp only [String.data_append]
    rw [List.append_assoc]
    exact isPrefixOf_append_self _ _
  have h2 : (baseCharts.all fun c => !(List.isPrefixOf "db_".data c.ID.data)) = true := by decide
  have h3 := List.all_eq_true.1 h2 b hbmem
  rw [hab, h1] at h3
  exact absurd h3 (by decide)

/-- `Charts.Add` registers every chart when there are no ID conflicts with
the existing collection (the new charts' IDs being pairwise distinct). -/
lemma chartsAdd_of_fresh : ∀ (new cs : List Chart),
    (new.map Chart.ID).Nodup →
    (∀ c ∈ new, ∀ c' ∈ cs, c.ID ≠ c'.ID) →
    chartsAdd cs new = (cs ++ new, none)
  | [], cs, _, _ => by simp [chartsAdd]
  | c :: rest, cs, hnd, h => by
    have hany : (cs.any fun x => x.ID = c.ID) = false := by
      rw [List.any_eq_false]
      intro x hx
      simp only [decide_eq_true_eq]
      exact fun he => absurd he.symm (h c (List.mem_cons_self _ _) x hx)
    have hnd' : (rest.map Chart.ID).Nodup := (List.nodup_cons.1 hnd).2
    have hcid : c.ID ∉ rest.map Chart.ID := (List.nodup_cons.1 hnd).1
    have h' : ∀ c'' ∈ rest, ∀ c' ∈ cs ++ [c], c''.ID ≠ c'.ID := by
      intro c'' hc'' c' hc'
      rcases List.mem_append.1 hc' with hl | hr
      · exact h c'' (List.mem_cons_of_mem _ hc'') c' hl
      · rw [List.mem_singleton.1 hr]
        intro he
        exact hcid (he ▸ List.mem_map_of_mem Chart.ID hc'')
    show chartsAdd cs (c :: rest) = (cs ++ c :: rest, none)
    rw [chartsAdd, hany]
    simp only [Bool.false_eq_true, if_false]
    rw [chartsAdd_of_fresh rest (cs ++ [c]) hnd' h']
    simp

lemma getD_map_lt (f : Chart → Chart) (l : List Chart) (i : Nat) (hi : i < l.length) :
    (l.map f).getD i default = f (l.getD i default) := by
  rw [List.getD_eq_getElem?_getD, List.getD_eq_getElem?_getD, List.getElem?_map,
    List.getElem?_eq_getElem hi]
  rfl

lemma take_set_of_le {α : Type} (l : List α) (r n : Nat) (x : α) (h : n ≤ r) :
    (l.set r x).take n = l.take n := by
  rw [List.set_take]
  refine List.set_eq_of_length_le ?_
  calc (l.take n).length = min n l.length := List.length_take n l
  _ ≤ n := Nat.min_le_left _ _
  _ ≤ r := h

lemma foldl_set_take (f : Chart → Chart) (n : Nat) :
    ∀ (rs : List Nat) (st : List Chart), (∀ r ∈ rs, n ≤ r) →
      ((rs.foldl (fun s r => s.set r (f (s.getD r default))) st).take n) = st.take n
  | [], _, _ => rfl
  | r :: rs, st, h => by
    rw [List.foldl_cons]
    rw [foldl_set_take f n rs _ (fun r' hr' => h r' (List.mem_cons_of_mem _ hr'))]
    exact take_set_of_le _ _ _ _ (h r (List.mem_cons_self _ _))

lemma newDatabaseChartsStore_eq (store : List Chart) (refs : List Nat) (d : String) :
    newDatabaseChartsStore store refs d =
      ((List.range' store.length refs.length).foldl
        (fun st r => st.set r (interpChart d (st.getD r default)))
        (store ++ refs.map (fun r => store.getD r default)),
       List.range' store.length refs.length) := rfl

/- The claim theorems. -/

/-- C1: for every database name d, `newDatabaseCharts(d)` returns the 14
charts of `dbChartsTmpl` with d substituted for the `%s` placeholder in the
chart ID and in every dimension ID, and with the single label
`database = d` attached to each returned chart. -/
theorem C1_newDatabaseCharts_substitution (d : String) :
    (newDatabaseCharts d).length = 14 ∧
    newDatabaseCharts d = specDatabaseCharts d ∧
    (newDatabaseCharts d).map Chart.Labels =
      List.replicate 14 [{ Key := "database", Value := d }] :=
  ⟨rfl, rfl, rfl⟩

/-- C2: `removeDatabaseCharts(d)` marks for removal and marks not-created
exactly the charts whose ID starts with `db_` ++ d ++ `_`; every other chart
is unchanged, and no chart is added to or deleted from the collection. -/
theorem C2_removeDatabaseCharts_frame (d : String) (cs : List Chart) :
    removeDatabaseChartsL d cs =
      (cs.map fun c =>
        if strHasPrefix ("db_" ++ d ++ "_") c.ID then c.markRemove.markNotCreated else c) ∧
    (removeDatabaseChartsL d cs).length = cs.length ∧
    (∀ i, i < cs.length →
      if strHasPrefix ("db_" ++ d ++ "_") (cs.getD i default).ID then
        (removeDatabaseChartsL d cs).getD i default =
          (cs.getD i default).markRemove.markNotCreated
      else (removeDatabaseChartsL d cs).getD i default = cs.getD i default) := by
  have he : removeDatabaseChartsL d cs =
      (cs.map fun c =>
        if strHasPrefix ("db_" ++ d ++ "_") c.ID then c.markRemove.markNotCreated else c) := rfl
  refine ⟨he, by rw [he]; exact List.length_map _ _, ?_⟩
  intro i hi
  by_cases h : strHasPrefix ("db_" ++ d ++ "_") (cs.getD i default).ID = true
  · rw [if_pos h, he, getD_map_lt _ _ _ hi, if_pos h]
  · rw [if_neg h, he, getD_map_lt _ _ _ hi, if_neg h]

/-- C2 witness: the frame property evaluated at a concrete collection and
index: a chart of another database (present at index 0) carries the prefix
and comes back marked. -/
theorem C2_removeDatabaseCharts_frame_witness :
    (removeDatabaseChartsL "mydb" (newDatabaseCharts "mydb")).length =
      (newDatabaseCharts "mydb").length ∧
    (if strHasPrefix ("db_" ++ "mydb" ++ "_")
        ((newDatabaseCharts "mydb").getD 0 default).ID then
      (removeDatabaseChartsL "mydb" (newDatabaseCharts "mydb")).getD 0 default =
        ((newDatabaseCharts "mydb").getD 0 default).markRemove.markNotCreated
    else
      (removeDatabaseChartsL "mydb" (newDatabaseCharts "mydb")).getD 0 default =
        (newDatabaseCharts "mydb").getD 0 default) :=
  ⟨(C2_removeDatabaseCharts_frame "mydb" (newDatabaseCharts "mydb")).2.1,
   (C2_removeDatabaseCharts_frame "mydb" (newDatabaseCharts "mydb")).2.2 0 (by decide)⟩

/-- C3: after `addNewDatabaseCharts(d)` followed by `removeDatabaseCharts(d)`
(starting from a collection with no conflicting IDs), every chart
instantiated for d is marked for removal and not-created, because every
instantiated chart ID starts with the prefix `db_` ++ d ++ `_`. -/
theorem C3_add_then_remove_marks_all (p : Postgres) (d : String)
    (h : ∀ c ∈ newDatabaseCharts d, ∀ c' ∈ p.charts, c.ID ≠ c'.ID) :
    ∀ c ∈ newDatabaseCharts d,
      strHasPrefix ("db_" ++ d ++ "_") c.ID = true ∧
      c.markRemove.markNotCreated ∈
        (removeDatabaseCharts d (addNewDatabaseCharts d p)).charts := by
  intro c hc
  have hpfx := newDatabaseCharts_ID_pfx d c hc
  refine ⟨hpfx, ?_⟩
  have hadd : (addNewDatabaseCharts d p).charts = p.charts ++ newDatabaseCharts d := by
    unfold addNewDatabaseCharts
    rw [chartsAdd_of_fresh (newDatabaseCharts d) p.charts (newDatabaseCharts_IDs_nodup d) h]
  show c.markRemove.markNotCreated ∈
    removeDatabaseChartsL d (addNewDatabaseCharts d p).charts
  rw [hadd]
  unfold removeDatabaseChartsL
  refine List.mem_map.2 ⟨c, List.mem_append_right _ hc, ?_⟩
  exact if_pos hpfx

/-- C3 witness: evaluated at the empty collection, the database `mydb`, and
the first template instance. -/
theorem C3_add_then_remove_marks_all_witness :
    strHasPrefix ("db_" ++ "mydb" ++ "_") (interpChart "mydb" dbTransactionsChartTmpl).ID = true ∧
    (interpChart "mydb" dbTransactionsChartTmpl).markRemove.markNotCreated ∈
      (removeDatabaseCharts "mydb" (addNewDatabaseCharts "mydb" {})).charts :=
  C3_add_then_remove_marks_all {} "mydb" (by decide)
    (interpChart "mydb" dbTransactionsChartTmpl) (by decide)

/-- C4: there are distinct database names, here `sales` and
`sales_x` = `sales` ++ `_x`, such that after charts are added for both,
`removeDatabaseCharts("sales")` also marks a chart instantiated for
`sales_x`, because `db_sales_` is a string prefix of its ID. -/
theorem C4_prefix_collision_across_databases :
    ("sales" : String) ≠ "sales_x" ∧
    ("sales_x" : String) = "sales" ++ "_x" ∧
    strHasPrefix ("db_" ++ "sales" ++ "_")
      (interpChart "sales_x" dbTransactionsChartTmpl).ID = true ∧
    (interpChart "sales_x" dbTransactionsChartTmpl).markRemove.markNotCreated ∈
      (removeDatabaseCharts "sales"
        (addNewDatabaseCharts "sales_x" (addNewDatabaseCharts "sales" {}))).charts := by
  decide

/-- C5: when no already-registered chart has a conflicting ID,
`addNewDatabaseCharts(d)` registers all 14 instantiated charts with the
collection; and in every case the function returns normally, its only
possible side effect beyond registration being one appended warning. -/
theorem C5_addNewDatabaseCharts_registration (d : String) (p : Postgres) :
    ((∀ c ∈ newDatabaseCharts d, ∀ c' ∈ p.charts, c.ID ≠ c'.ID) →
      (addNewDatabaseCharts d p).charts = p.charts ++ newDatabaseCharts d ∧
      (newDatabaseCharts d).length = 14 ∧
      (addNewDatabaseCharts d p).warnings = p.warnings) ∧
    ((addNewDatabaseCharts d p).warnings = p.warnings ∨
      ∃ e, (addNewDatabaseCharts d p).warnings = p.warnings ++ [e]) := by
  constructor
  · intro h
    have hca := chartsAdd_of_fresh (newDatabaseCharts d) p.charts
      (newDatabaseCharts_IDs_nodup d) h
    unfold addNewDatabaseCharts
    rw [hca]
    exact ⟨rfl, rfl, rfl⟩
  · unfold addNewDatabaseCharts
    rcases hq : chartsAdd p.charts (newDatabaseCharts d) with ⟨cs, err⟩
    cases err with
    | none => exact Or.inl rfl
    | some e => exact Or.inr ⟨e, rfl⟩

/-- C5 witness: registration into the empty collection. -/
theorem C5_addNewDatabaseCharts_registration_witness :
    (addNewDatabaseCharts "mydb" {}).charts =
      ({} : Postgres).charts ++ newDatabaseCharts "mydb" ∧
    (addNewDatabaseCharts "mydb" {}).warnings = ({} : Postgres).warnings :=
  ⟨((C5_addNewDatabaseCharts_registration "mydb" {}).1 (by decide)).1,
   ((C5_addNewDatabaseCharts_registration "mydb" {}).1 (by decide)).2.2⟩

/-- C6: chart IDs are unique: the 18 base chart IDs are pairwise distinct,
and for every database name d the 14 instantiated chart IDs are pairwise
distinct and distinct from every base chart ID (stated as: the concatenation
of the two ID lists has no duplicate). -/
theorem C6_chart_IDs_unique (d : String) :
    baseCharts.length = 18 ∧
    (newDatabaseCharts d).length = 14 ∧
    ((newDatabaseCharts d).map Chart.ID ++ baseCharts.map Chart.ID).Nodup := by
  refine ⟨rfl, rfl, ?_⟩
  rw [List.nodup_append]
  exact ⟨newDatabaseCharts_IDs_nodup d, by decide,
    fun a ha hb => gen_base_ID_disjoint d a ha hb⟩

/-- C7: in the pointer-store model, instantiating the charts for a database
leaves every cell of the template `dbChartsTmpl` unchanged — in particular
the template's chart IDs, dimension IDs, and labels are identical before and
after the call — because the returned charts are mutated on fresh cells
allocated by the deep copy. -/
theorem C7_template_unchanged (d : String) :
    ((newDatabaseChartsStore dbChartsTmpl (List.range dbChartsTmpl.length) d).1).take
        dbChartsTmpl.length = dbChartsTmpl ∧
    (((newDatabaseChartsStore dbChartsTmpl (List.range dbChartsTmpl.length) d).1).take
        dbChartsTmpl.length).map Chart.ID = dbChartsTmpl.map Chart.ID ∧
    (((newDatabaseChartsStore dbChartsTmpl (List.range dbChartsTmpl.length) d).1).take
        dbChartsTmpl.length).map (fun c => c.Dims.map Dim.ID) =
      dbChartsTmpl.map (fun c => c.Dims.map Dim.ID) ∧
    (((newDatabaseChartsStore dbChartsTmpl (List.range dbChartsTmpl.length) d).1).take
        dbChartsTmpl.length).map Chart.Labels = dbChartsTmpl.map Chart.Labels := by
  have hmain : ((newDatabaseChartsStore dbChartsTmpl
      (List.range dbChartsTmpl.length) d).1).take dbChartsTmpl.length = dbChartsTmpl := by
    rw [newDatabaseChartsStore_eq]
    show ((List.range' dbChartsTmpl.length (List.range dbChartsTmpl.length).length).foldl
        (fun st r => st.set r (interpChart d (st.getD r default)))
        (dbChartsTmpl ++ (List.range dbChartsTmpl.length).map
          (fun r => dbChartsTmpl.getD r default))).take dbChartsTmpl.length = dbChartsTmpl
    rw [foldl_set_take (interpChart d) dbChartsTmpl.length _ _ (by decide)]
    exact List.take_left _ _
  exact ⟨hmain, by rw [hmain], by rw [hmain], by rw [hmain]⟩

/-- C8: each instantiated chart keeps the template chart's title, units,
family, context, priority, render type, and the number, order, names and
algorithms of its dimensions, and the charts appear in the template's
order (stated positionally over the whole lists). -/
theorem C8_template_fields_preserved (d : String) :
    (newDatabaseCharts d).length = dbChartsTmpl.length ∧
    (newDatabaseCharts d).map Chart.Title = dbChartsTmpl.map Chart.Title ∧
    (newDatabaseCharts d).map Chart.Units = dbChartsTmpl.map Chart.Units ∧
    (newDatabaseCharts d).map Chart.Fam = dbChartsTmpl.map Chart.Fam ∧
    (newDatabaseCharts d).map Chart.Ctx = dbChartsTmpl.map Chart.Ctx ∧
    (newDatabaseCharts d).map Chart.Priority = dbChartsTmpl.map Chart.Priority ∧
    (newDatabaseCharts d).map Chart.chartType = dbChartsTmpl.map Chart.chartType ∧
    (newDatabaseCharts d).map (fun c => c.Dims.length) =
      dbChartsTmpl.map (fun c => c.Dims.length) ∧
    (newDatabaseCharts d).map (fun c => c.Dims.map Dim.Name) =
      dbChartsTmpl.map (fun c => c.Dims.map Dim.Name) ∧
    (newDatabaseCharts d).map (fun c => c.Dims.map Dim.Algo) =
      dbChartsTmpl.map (fun c => c.Dims.map Dim.Algo) :=
  ⟨rfl, rfl, rfl, rfl, rfl, rfl, rfl, rfl, rfl, rfl⟩

/-- C9: every chart ID and every dimension ID in `dbChartsTmpl` contains
exactly one `%s` verb and no other verb, and for every database name d
(including names containing percent characters) the substitution performed
by `newDatabaseCharts` coincides with the literal replacement of `%s` by d,
so no `fmt` error artifact can appear in an ID. -/
theorem C9_single_verb_literal_substitution (d : String) :
    (dbChartsTmpl.all fun c =>
      onePSb c.ID.data && c.Dims.all fun dm => onePSb dm.ID.data) = true ∧
    (newDatabaseCharts d).map Chart.ID =
      dbChartsTmpl.map (fun c => (⟨replaceFirstPS c.ID.data d.data⟩ : String)) ∧
    (newDatabaseCharts d).map (fun c => c.Dims.map Dim.ID) =
      dbChartsTmpl.map (fun c =>
        c.Dims.map fun dm => (⟨replaceFirstPS dm.ID.data d.data⟩ : String)) :=
  ⟨by decide, rfl, rfl⟩

/-- C10: the 32 priority constants are the consecutive values
`module.Priority`, `module.Priority` + 1, …, in declaration order, and the
priorities of the 18 base charts and 14 template charts are exactly a
permutation of them — so they are pairwise distinct and no two chart
definitions share a priority. -/
theorem C10_priorities_consecutive_distinct :
    [prioConnectionsUtilization, prioConnectionsUsage, prioCheckpoints,
     prioCheckpointTime, prioBGWriterBuffersAllocated, prioBGWriterBuffersWritten,
     prioBGWriterMaxWrittenClean, prioBGWriterBackedFsync, prioWALWrites,
     prioWALFiles, prioWALArchive, prioAutovacuumWorkers,
     prioAutovacuumPercentTowards, prioTXIDWraparoundPercentTowards,
     prioTXIDWraparoundOldestTXID, prioCatalogRelationCount,
     prioCatalogRelationSize, prioUptime, prioDBTransactions,
     prioDBConnectionsUtilization, prioDBConnections, prioDBBufferCache,
     prioDBReadOperations, prioDBWriteOperations, prioDBConflicts,
     prioDBConflictsStat, prioDBDeadlocks, prioDBLocksHeld, prioDBLocksAwaited,
     prioDBTempFiles, prioDBTempFilesData, prioDBSize] =
      List.range' modulePriority 32 ∧
    (baseCharts ++ dbChartsTmpl).length = 32 ∧
    ((baseCharts ++ dbChartsTmpl).map Chart.Priority).Nodup ∧
    ((baseCharts ++ dbChartsTmpl).map Chart.Priority).Perm
      (List.range' modulePriority 32) := by
  refine ⟨by decide, by decide, by decide, by decide⟩
